import Mathlib

/-!
Shallow embedding of the osgearth-buildings building factory and pager
(`src/osgEarthBuildings/BuildingFactory.cpp`, `src/osgEarthBuildings/BuildingPager.cpp`).
Machine floats are modelled as exact rationals.  External osgEarth collaborators
(geometry utilities, the elevation query, the style session) and classes of this
repository that are not part of the two translated files (Building, Elevation,
Parapet, BuildingVisitor, BuildingSymbol, BuildContext) are modelled as explicit
parameters or as small definitions noted `Modelled from the spec:` at each site.
-/

namespace OEB

/-- 3D point (model of osg::Vec3d with exact rational coordinates). -/
structure Vec3 where
  x : ℚ
  y : ℚ
  z : ℚ
deriving DecidableEq, Repr

/-- A vertical wall-face edge: lower and upper corner points (the `lower`/`upper`
fields of the `left`/`right` members touched by BuildingClamper::apply). -/
structure WallEdge where
  lower : Vec3
  upper : Vec3
deriving DecidableEq, Repr

/-- A wall face with a left and a right vertical edge (model of Elevation Face). -/
structure Face where
  left : WallEdge
  right : WallEdge
deriving DecidableEq, Repr

/-- A wall: a sequence of faces (model of an Elevation Wall). -/
structure Wall where
  faces : List Face
deriving DecidableEq, Repr

/-- RGB color (model of osgEarth Symbology Color; alpha omitted). -/
structure Color where
  r : ℚ
  g : ℚ
  b : ℚ
deriving DecidableEq, Repr

/-- Color::Gray (neutral gray base color). -/
def Color.gray : Color := ⟨1/2, 1/2, 1/2⟩

/-- Model of external Color::brightness: scales the rgb channels. -/
def Color.brightness (c : Color) (f : ℚ) : Color := ⟨c.r * f, c.g * f, c.b * f⟩

/-- Named texture resource with its per-image height (model of SkinResource;
only the fields the factory reads). -/
structure Skin where
  name : String
  imageHeight : ℚ
deriving DecidableEq, Repr

/-- Roof type enumeration (TYPE_FLAT and the other variants). -/
inductive RoofType where
  | flat
  | other
deriving DecidableEq, Repr

/-- Modelled from the spec: class Roof (not under src/) — a type enum (left `none`
when the factory does not set it), an optional skin and an optional color. -/
structure Roof where
  rtype : Option RoofType
  skin : Option Skin
  color : Option Color
deriving DecidableEq, Repr

/-- Elevation kind: a plain Elevation or a Parapet (the C++ subclass Parapet is
modelled as a tag, since the class hierarchy is not under src/). -/
inductive ElevKind where
  | plain
  | parapet
deriving DecidableEq, Repr

mutual
/-- Modelled from the spec: the Elevation tree (class Elevation, not under src/) —
height, floor count, optional roof, optional wall skin, color, derived walls, child
elevations and a parent back-reference.  `tag` is a surrogate for C++ object
identity so that the parent pointer can be expressed; `width` carries the value
set by Parapet::setWidth. -/
inductive Elevation where
  | mk (tag : Nat) (kind : ElevKind) (height : ℚ) (numFloors : Nat) (width : ℚ)
       (color : Option Color) (roof : Option Roof) (skinResource : Option Skin)
       (parent : Option Nat) (walls : List Wall) (children : ElevList)

/-- Sequence of child Elevations (mutual with Elevation). -/
inductive ElevList where
  | nil
  | cons (head : Elevation) (tail : ElevList)
end

def Elevation.tag : Elevation → Nat
  | .mk t _ _ _ _ _ _ _ _ _ _ => t

def Elevation.kind : Elevation → ElevKind
  | .mk _ k _ _ _ _ _ _ _ _ _ => k

def Elevation.height : Elevation → ℚ
  | .mk _ _ h _ _ _ _ _ _ _ _ => h

def Elevation.numFloors : Elevation → Nat
  | .mk _ _ _ n _ _ _ _ _ _ _ => n

def Elevation.width : Elevation → ℚ
  | .mk _ _ _ _ w _ _ _ _ _ _ => w

def Elevation.color : Elevation → Option Color
  | .mk _ _ _ _ _ c _ _ _ _ _ => c

def Elevation.roof : Elevation → Option Roof
  | .mk _ _ _ _ _ _ r _ _ _ _ => r

def Elevation.skinResource : Elevation → Option Skin
  | .mk _ _ _ _ _ _ _ s _ _ _ => s

def Elevation.parent : Elevation → Option Nat
  | .mk _ _ _ _ _ _ _ _ p _ _ => p

def Elevation.walls : Elevation → List Wall
  | .mk _ _ _ _ _ _ _ _ _ ws _ => ws

def Elevation.children : Elevation → ElevList
  | .mk _ _ _ _ _ _ _ _ _ _ ch => ch

/-- The roof's type, when a roof is present and its type was set. -/
def Elevation.roofType (e : Elevation) : Option RoofType :=
  match e.roof with
  | some r => r.rtype
  | none => none

def ElevList.length : ElevList → Nat
  | .nil => 0
  | .cons _ es => es.length + 1

def ElevList.head? : ElevList → Option Elevation
  | .nil => none
  | .cons e _ => some e

/-- Model of class Building (not under src/; modelled from the spec: a UID derived
from the source FID, a reference frame, and an ordered sequence of Elevations).
The local-to-world reference frame is represented by its 2D anchor point. -/
structure Building where
  uid : Nat
  referenceFrame : Option (ℚ × ℚ)
  elevations : ElevList

/-- BuildingClamper edge shift (BuildingFactory.cpp lines 75-78): adds `_min` to
the z coordinate of all four corner points of a face's edges. -/
def clampEdge (m : ℚ) (e : WallEdge) : WallEdge :=
  { lower := { e.lower with z := e.lower.z + m },
    upper := { e.upper with z := e.upper.z + m } }

def clampFace (m : ℚ) (f : Face) : Face :=
  { left := clampEdge m f.left, right := clampEdge m f.right }

def clampWall (m : ℚ) (w : Wall) : Wall :=
  { faces := w.faces.map (clampFace m) }

mutual
/-- BuildingClamper::apply: shifts every face edge of every wall of the elevation,
then traverses the children (BuildingVisitor::traverse is not under src/; modelled
from the spec: the traversal visits every Elevation in the tree recursively). -/
def clampElevation (m : ℚ) : Elevation → Elevation
  | .mk t k h n w c r s p walls ch =>
      .mk t k h n w c r s p (walls.map (clampWall m)) (clampElevList m ch)

def clampElevList (m : ℚ) : ElevList → ElevList
  | .nil => .nil
  | .cons e es => .cons (clampElevation m e) (clampElevList m es)
end

/-- Building::accept with a BuildingClamper (modelled from the spec: visits every
Elevation of the building recursively). -/
def clampBuilding (m : ℚ) (b : Building) : Building :=
  { b with elevations := clampElevList m b.elevations }

/-- The z coordinates of the four edge corners of a face, in source order. -/
def Face.edgeZs (f : Face) : List ℚ :=
  [f.left.lower.z, f.left.upper.z, f.right.lower.z, f.right.upper.z]

/-- All edge z coordinates of a wall. -/
def Wall.edgeZs (w : Wall) : List ℚ :=
  w.faces.flatMap Face.edgeZs

mutual
/-- All wall face edge z coordinates of an elevation tree, own walls first. -/
def Elevation.edgeZs : Elevation → List ℚ
  | .mk _ _ _ _ _ _ _ _ _ walls ch =>
      walls.flatMap Wall.edgeZs ++ ElevList.edgeZs ch

def ElevList.edgeZs : ElevList → List ℚ
  | .nil => []
  | .cons e es => Elevation.edgeZs e ++ ElevList.edgeZs es
end

/-- All wall face edge z coordinates of a building. -/
def Building.edgeZs (b : Building) : List ℚ :=
  ElevList.edgeZs b.elevations

theorem clampFace_edgeZs (m : ℚ) (f : Face) :
    (clampFace m f).edgeZs = f.edgeZs.map (· + m) := by
  simp [clampFace, clampEdge, Face.edgeZs]

theorem clampWall_edgeZs (m : ℚ) (w : Wall) :
    (clampWall m w).edgeZs = w.edgeZs.map (· + m) := by
  simp only [clampWall, Wall.edgeZs]
  induction w.faces with
  | nil => rfl
  | cons f fs ih =>
      simp only [List.map_cons, List.flatMap_cons, List.map_append, ih,
        clampFace_edgeZs]

theorem clampWalls_edgeZs (m : ℚ) (walls : List Wall) :
    (walls.map (clampWall m)).flatMap Wall.edgeZs
      = (walls.flatMap Wall.edgeZs).map (· + m) := by
  induction walls with
  | nil => rfl
  | cons w ws ih =>
      simp only [List.map_cons, List.flatMap_cons, List.map_append, ih,
        clampWall_edgeZs]

mutual
theorem clampElevation_edgeZs (m : ℚ) (e : Elevation) :
    (clampElevation m e).edgeZs = e.edgeZs.map (· + m) := by
  cases e with
  | mk t k h n w c r s p walls ch =>
      show (walls.map (clampWall m)).flatMap Wall.edgeZs
            ++ ElevList.edgeZs (clampElevList m ch)
          = (walls.flatMap Wall.edgeZs ++ ElevList.edgeZs ch).map (· + m)
      rw [clampElevList_edgeZs m ch, clampWalls_edgeZs m walls, List.map_append]

theorem clampElevList_edgeZs (m : ℚ) (es : ElevList) :
    (clampElevList m es).edgeZs = es.edgeZs.map (· + m) := by
  cases es with
  | nil => rfl
  | cons e es =>
      show (clampElevation m e).edgeZs ++ (clampElevList m es).edgeZs
          = (e.edgeZs ++ es.edgeZs).map (· + m)
      rw [clampElevation_edgeZs m e, clampElevList_edgeZs m es, List.map_append]
end

theorem clampBuilding_edgeZs (m : ℚ) (b : Building) :
    (clampBuilding m b).edgeZs = b.edgeZs.map (· + m) := by
  simpa [clampBuilding, Building.edgeZs] using clampElevList_edgeZs m b.elevations

/-! ### Geometry and features (model of the external osgEarth Symbology layer) -/

/-- Geometry component type (osgEarth Geometry::Type; only the polygon test
matters to the factory). -/
inductive GeomType where
  | polygon
  | lineString
  | pointSet
deriving DecidableEq, Repr

/-- One part of a (multi-)geometry as enumerated by GeometryIterator with hole
traversal off: either a polygon ring or a non-polygon part (for which the
dynamic_cast to Polygon in createBuilding yields null). -/
inductive GeomPart where
  | polygon (ring : List Vec3)
  | nonPolygon (pts : List Vec3)
deriving DecidableEq, Repr

def GeomPart.points : GeomPart → List Vec3
  | .polygon r => r
  | .nonPolygon p => p

/-- Applies a point-list transformation to a part, keeping its type. -/
def GeomPart.mapPoints (h : List Vec3 → List Vec3) : GeomPart → GeomPart
  | .polygon r => .polygon (h r)
  | .nonPolygon p => .nonPolygon (h p)

/-- Model of an osgEarth geometry: its component type and its parts. -/
structure Geometry where
  compType : GeomType
  parts : List GeomPart
deriving DecidableEq, Repr

def Geometry.mapPointLists (h : List Vec3 → List Vec3) (g : Geometry) : Geometry :=
  { g with parts := g.parts.map (GeomPart.mapPoints h) }

def Geometry.allPoints (g : Geometry) : List Vec3 :=
  g.parts.flatMap GeomPart.points

/-- Model of external Ring/Polygon::isValid: a ring with at least three points. -/
def ringIsValid (ring : List Vec3) : Bool :=
  3 ≤ ring.length

def GeomPart.isValid : GeomPart → Bool
  | .polygon r => ringIsValid r
  | .nonPolygon p => !p.isEmpty

/-- Model of external Geometry::isValid for the whole (multi-)geometry. -/
def Geometry.isValid (g : Geometry) : Bool :=
  !g.parts.isEmpty && g.parts.all GeomPart.isValid

/-- Center of the geometry's 2D bounding box (external Bounds::center2d /
Bounds::center restricted to x,y). Unreachable for empty geometry at all
call sites; (0,0) there. -/
def Geometry.boundsCenter2d (g : Geometry) : ℚ × ℚ :=
  match g.allPoints with
  | [] => (0, 0)
  | p :: ps =>
      ((ps.foldl (fun a q => min a q.x) p.x + ps.foldl (fun a q => max a q.x) p.x) / 2,
       (ps.foldl (fun a q => min a q.y) p.y + ps.foldl (fun a q => max a q.y) p.y) / 2)

/-- Input feature: stable identifier, flat attribute map, optional geometry
(model of osgEarth Features Feature; the SRS is left implicit — the flat-plane
model identifies all spatial references). -/
structure Feature where
  fid : Nat
  attrs : List (String × ℚ)
  geometry : Option Geometry

/-- Modelled from the spec: a NumericExpression of the style layer (not under
src/) — a constant, or an attribute reference with a default. -/
inductive NumericExpression where
  | const (v : ℚ)
  | attr (name : String) (dflt : ℚ)

/-- Model of external Feature::eval: evaluates a numeric expression against the
feature's attributes. -/
def Feature.eval (f : Feature) (e : NumericExpression) : ℚ :=
  match e with
  | .const v => v
  | .attr nm dflt => (f.attrs.lookup nm).getD dflt

/-! ### Styles and the session (external osgEarth style layer + BuildingSymbol) -/

/-- AltitudeSymbol clamping mode (CLAMP_NONE and the active modes). -/
inductive AltClampMode where
  | clampNone
  | clampTerrain
  | clampRelative
  | clampAbsolute
deriving DecidableEq, Repr

/-- Modelled from the spec: class BuildingSymbol (not under src/) — an expression
for the target height and a configured floor height. -/
structure BuildingSymbol where
  height : NumericExpression
  floorHeight : ℚ

/-- Model of an osgEarth Style as read by the two translated files: the optional
AltitudeSymbol's clamping mode, and the optional BuildingSymbol. -/
structure Style where
  altitude : Option AltClampMode
  buildingSym : Option BuildingSymbol

/-- Model of a ResourceLibrary: named skins; getSkin returns none on a miss. -/
structure ResourceLibrary where
  skins : List (String × Skin)

def ResourceLibrary.getSkin (lib : ResourceLibrary) (nm : String) : Option Skin :=
  lib.skins.lookup nm

/-- Model of a StyleSheet: the default style, the optional default resource
library, and the named styles (getStyle with no auto-create returns none on a
miss). -/
structure StyleSheet where
  defaultStyle : Style
  resourceLibrary : Option ResourceLibrary
  namedStyles : List (String × Style)

def StyleSheet.getStyle (ss : StyleSheet) (nm : String) : Option Style :=
  ss.namedStyles.lookup nm

/-- Model of a Session: the factory and pager only read its style sheet. -/
structure Session where
  styles : StyleSheet

/-- Model of a GeoExtent: validity flag and a rectangle (the flat-plane model
identifies all spatial references, so contains is plain rectangle membership,
inclusive at the borders). -/
structure GeoExtent where
  valid : Bool
  xmin : ℚ
  xmax : ℚ
  ymin : ℚ
  ymax : ℚ
deriving DecidableEq, Repr

def GeoExtent.containsPt (e : GeoExtent) (x y : ℚ) : Bool :=
  decide (e.xmin ≤ x ∧ x ≤ e.xmax ∧ e.ymin ≤ y ∧ y ≤ e.ymax)

/-- An invalid extent (used where the source passes GeoExtent::INVALID). -/
def invalidExtent : GeoExtent :=
  { valid := false, xmin := 0, xmax := 0, ymin := 0, ymax := 0 }

/-- Modelled from the spec: class BuildContext (not under src/) — carries the
deterministic seed derived from the feature identifier. -/
structure BuildContext where
  seed : Nat

/-! ### Footprint cleanup (BuildingFactory::cleanPolygon, lines 275-285;
the three steps are external osgEarth geometry utilities, modelled per the
spec's description of each one) -/

/-- Ring::open — removes the duplicated closing vertex of a closed ring. -/
def openRing (ps : List Vec3) : List Vec3 :=
  if 2 ≤ ps.length ∧ ps.head? = ps.getLast? then ps.dropLast else ps

/-- Geometry::removeDuplicates — removes consecutive duplicate points. -/
def dedupConsec : List Vec3 → List Vec3
  | [] => []
  | [p] => [p]
  | p :: q :: r => if p = q then dedupConsec (q :: r) else p :: dedupConsec (q :: r)

/-- Twice the signed area of an open ring (shoelace formula). -/
def signedArea2 (ps : List Vec3) : ℚ :=
  (ps.zip (ps.rotate 1)).foldl (fun a pq => a + (pq.1.x * pq.2.y - pq.2.x * pq.1.y)) 0

/-- Ring::rewind to ORIENTATION_CCW — reverses a clockwise-wound ring. -/
def rewindCCW (ps : List Vec3) : List Vec3 :=
  if signedArea2 ps < 0 then ps.reverse else ps

/-- BuildingFactory::cleanPolygon: open, remove duplicates, rewind CCW. -/
def cleanPolygon (ps : List Vec3) : List Vec3 :=
  rewindCCW (dedupConsec (openRing ps))

/-! ### Building::build (not under src/; modelled from the spec) -/

/-- Consecutive point pairs of a ring, wrapping around. -/
def cyclicPairs (ps : List Vec3) : List (Vec3 × Vec3) :=
  ps.zip (ps.rotate 1)

/-- Modelled from the spec: wall derivation of Building::build — one face per
footprint edge, with left/right vertical edges running from the base elevation
to base + height. -/
def wallFromFootprint (fp : List Vec3) (base h : ℚ) : Wall :=
  { faces := (cyclicPairs fp).map (fun pq =>
      { left := { lower := { pq.1 with z := base }, upper := { pq.1 with z := base + h } },
        right := { lower := { pq.2 with z := base }, upper := { pq.2 with z := base + h } } }) }

mutual
/-- Modelled from the spec: Building::build derives each Elevation's walls from
the cleaned footprint; child elevations (e.g. the parapet) are stacked above
their parent.  Structure does not depend on the context seed (procedural
variation is reproducible per seed and is not modelled further). -/
def elevBuild (fp : List Vec3) (ctx : BuildContext) (base : ℚ) : Elevation → Elevation
  | .mk t k h n w c r s p _ ch =>
      .mk t k h n w c r s p [wallFromFootprint fp base h]
        (elevBuildList fp ctx (base + h) ch)

def elevBuildList (fp : List Vec3) (ctx : BuildContext) (base : ℚ) :
    ElevList → ElevList
  | .nil => .nil
  | .cons e es => .cons (elevBuild fp ctx base e) (elevBuildList fp ctx base es)
end

/-- Modelled from the spec: Building::build — builds the internal structure of
every elevation from the cleaned footprint and the seeded BuildContext. -/
def buildingBuild (b : Building) (fp : List Vec3) (ctx : BuildContext) : Building :=
  { b with elevations := elevBuildList fp ctx 0 b.elevations }

/-! ### BuildingFactory (BuildingFactory.cpp) -/

/-- FLT_MAX, the float sentinel used at BuildingFactory.cpp line 171, as an
exact rational: (2 - 2^-23) * 2^127. -/
def fltMax : ℚ := (2 ^ 24 - 1) * 2 ^ 104

/-- osg::round: round half away from zero. -/
def osgRound (v : ℚ) : ℤ :=
  if 0 ≤ v then ⌊v + 1 / 2⌋ else ⌈v - 1 / 2⌉

/-- The factory's state: the session (set by setSession; nullable), the optional
catalog, the optional output-SRS reprojection, together with its external
collaborators supplied as explicit functions: the colinear-point removal of
osgEarth Geometry::removeColinearPoints, and the ElevationQuery `_eq` —
`getElevations` on a part's points either fails (none) or yields the resolved
per-point elevations (fallback-on-no-data is folded into the function). -/
structure BuildingFactory where
  session : Option Session
  catalog : Option (Feature → Option Style → ℚ → List Building)
  outSRS : Option (Vec3 → Vec3)
  removeColinear : List Vec3 → List Vec3
  eqGetElevations : List Vec3 → Option (List ℚ)

/-- BuildingFactory::cropToCentroid (lines 50-59): an invalid extent always
passes; otherwise the center of the geometry's bounding box must lie in the
extent.  (The feature's geometry is non-null at the only call site.) -/
def BuildingFactory.cropToCentroid (f : Feature) (extent : GeoExtent) : Bool :=
  if extent.valid = false then true
  else
    match f.geometry with
    | some g => extent.containsPt g.boundsCenter2d.1 g.boundsCenter2d.2
    | none => true

/-- BuildingFactory::calculateTerrainMinMax (lines 105-129): per geometry part,
query the elevations of the part's points; on success fold each sample into the
running min/max, on failure leave them unchanged. -/
def BuildingFactory.calculateTerrainMinMax (fac : BuildingFactory) (f : Feature)
    (mm : ℚ × ℚ) : ℚ × ℚ :=
  match f.geometry with
  | none => mm
  | some g =>
      g.parts.foldl (fun acc part =>
        match fac.eqGetElevations part.points with
        | some es =>
            es.foldl (fun a e =>
              (if e < a.1 then e else a.1, if a.2 < e then e else a.2)) acc
        | none => acc) mm

/-- The clamp decision of create (lines 141-144): a style is present, carries an
AltitudeSymbol, and its clamping mode is not CLAMP_NONE. -/
def needToClamp (style : Option Style) : Bool :=
  match style with
  | none => false
  | some st =>
      match st.altitude with
      | none => false
      | some mode => decide (mode ≠ AltClampMode.clampNone)

/-- Local tangent frame at anchor c, applied to a point: the flat-plane model of
transformToWorld followed by the world-to-local matrix (a translation). -/
def toLocal (c : ℚ × ℚ) (p : Vec3) : Vec3 :=
  { x := p.x - c.1, y := p.y - c.2, z := p.z }

/-- Resolution of the wall skin in createSampleBuilding (lines 309-319):
`"facade.commercial.1"` from the session's default resource library. -/
def BuildingFactory.wallSkinOf (fac : BuildingFactory) : Option Skin :=
  match fac.session with
  | some sess =>
      match sess.styles.resourceLibrary with
      | some lib => lib.getSkin "facade.commercial.1"
      | none => none
  | none => none

/-- Resolution of the roof skin in createSampleBuilding (lines 309-319):
`"roof.commercial.1"` from the session's default resource library. -/
def BuildingFactory.roofSkinOf (fac : BuildingFactory) : Option Skin :=
  match fac.session with
  | some sess =>
      match sess.styles.resourceLibrary with
      | some lib => lib.getSkin "roof.commercial.1"
      | none => none
  | none => none

/-- BuildingFactory::createSampleBuilding (lines 287-363): one root elevation
with a flat roof, height/floor count from the session's default style's
BuildingSymbol (falling back to 15.0 / 1), skins from the default resource
library when present, and one parapet child (width 2, height 2, one floor)
whose parent is the root elevation.  Root elevation gets surrogate identity
tag 0, the parapet tag 1. -/
def BuildingFactory.createSampleBuilding (fac : BuildingFactory)
    (of : Option Feature) : Building :=
  let wallSkin := fac.wallSkinOf
  let roofSkin := fac.roofSkinOf
  let hf : ℚ × Nat :=
    match fac.session with
    | some sess =>
        match sess.styles.defaultStyle.buildingSym with
        | some sym =>
            let h : ℚ :=
              match of with
              | some f => f.eval sym.height
              | none => 15
            let nf : Nat :=
              match wallSkin with
              | some ws => (max 1 (osgRound (h / ws.imageHeight))).toNat
              | none => (max 1 (osgRound (h / sym.floorHeight))).toNat
            (h, nf)
        | none => (15, 1)
    | none => (15, 1)
  let parapet : Elevation :=
    .mk 1 .parapet 2 1 2 (some (Color.gray.brightness (13 / 10)))
      (some { rtype := none, skin := roofSkin,
              color := some (Color.gray.brightness (12 / 10)) })
      none (some 0) [] .nil
  let root : Elevation :=
    .mk 0 .plain hf.1 hf.2 0 none
      (some { rtype := some .flat, skin := roofSkin, color := none })
      wallSkin none [] (.cons parapet .nil)
  { uid := match of with | some f => f.fid | none => 0,
    referenceFrame := none,
    elevations := .cons root .nil }

/-- The BuildContext seeded in createBuilding (lines 243-244): seed from the
feature identifier. -/
def buildContextOf (f : Feature) : BuildContext :=
  { seed := f.fid }

/-- BuildingFactory::createBuilding (lines 209-273): requires polygon-type,
valid geometry; anchors the local frame at the 2D bounding-box center;
transforms all parts into the local frame; then for every valid polygon ring
constructs a sample building, installs the reference frame, cleans the
footprint and builds — the `building` ref_ptr is overwritten per ring, so the
last valid ring's building is the one returned. -/
def BuildingFactory.createBuilding (fac : BuildingFactory) (of : Option Feature) :
    Option Building :=
  match of with
  | none => none
  | some feat =>
      match feat.geometry with
      | none => none
      | some g =>
          if g.compType = GeomType.polygon ∧ g.isValid = true then
            let c := g.boundsCenter2d
            let glocal := g.mapPointLists (fun ps => ps.map (toLocal c))
            let ctx := buildContextOf feat
            glocal.parts.foldl (fun acc part =>
              match part with
              | .polygon ring =>
                  if ringIsValid ring then
                    some (buildingBuild
                      { fac.createSampleBuilding (some feat) with
                          referenceFrame := some c }
                      (cleanPolygon ring) ctx)
                  else acc
              | .nonPolygon _ => acc) none
          else none

/-- The per-feature preprocessing of create (lines 150-160): remove colinear
points from the geometry, then reproject into the output SRS when configured. -/
def BuildingFactory.preprocess (fac : BuildingFactory) (f : Feature) : Feature :=
  let f1 : Feature :=
    { f with geometry := f.geometry.map (Geometry.mapPointLists fac.removeColinear) }
  match fac.outSRS with
  | some tr => { f1 with geometry := f1.geometry.map (Geometry.mapPointLists (List.map tr)) }
  | none => f1

/-- One iteration of create's feature loop (lines 147-203): skip null features
and null geometry; preprocess; centroid-crop; sample terrain min/max when the
style demands clamping; generate via the catalog or the single-building
generator; clamp the newly appended slice when min/max moved off their
sentinels. -/
def BuildingFactory.createStep (fac : BuildingFactory) (cropTo : GeoExtent)
    (style : Option Style) (ntc : Bool) (output : List Building)
    (of : Option Feature) : List Building :=
  match of with
  | none => output
  | some f0 =>
      match f0.geometry with
      | none => output
      | some _ =>
          let f := fac.preprocess f0
          if BuildingFactory.cropToCentroid f cropTo = false then output
          else
            let mm : ℚ × ℚ :=
              if ntc then fac.calculateTerrainMinMax f (fltMax, -fltMax)
              else (fltMax, -fltMax)
            let terrainMinMaxValid := decide (mm.1 < mm.2)
            let offset := output.length
            let out2 : List Building :=
              match fac.catalog with
              | some cat =>
                  output ++ cat f style (if terrainMinMaxValid then mm.2 - mm.1 + 3 else 3)
              | none =>
                  match fac.createBuilding (some f) with
                  | some b => output ++ [b]
                  | none => output
            if mm.1 < fltMax ∧ -fltMax < mm.2 then
              out2.take offset ++ (out2.drop offset).map (clampBuilding mm.1)
            else out2

/-- BuildingFactory::create (lines 131-207): fails only on a null cursor; else
computes the clamp decision once and folds the feature loop over the cursor's
features, returning true. -/
def BuildingFactory.create (fac : BuildingFactory)
    (input : Option (List (Option Feature))) (cropTo : GeoExtent)
    (style : Option Style) (output : List Building) : List Building × Bool :=
  match input with
  | none => (output, false)
  | some feats =>
      (feats.foldl (fac.createStep cropTo style (needToClamp style)) output, true)

/-! ### BuildingPager (BuildingPager.cpp) -/

/-- Whether the style sheet defines a style named by the decimal level i
(BuildingPager.cpp lines 56-58; getStyle with auto-create off). -/
def styleDefinedAt (ss : StyleSheet) (i : Nat) : Bool :=
  (ss.getStyle (toString i)).isSome

/-- One step of the LOD scan (lines 58-68): the first defined level fills the
minimum, the next defined level fills the maximum, later levels change nothing. -/
def lodScanStep (ss : StyleSheet) (acc : Option Nat × Option Nat) (i : Nat) :
    Option Nat × Option Nat :=
  if styleDefinedAt ss i then
    match acc with
    | (none, mx) => (some i, mx)
    | (some mn, none) => (some mn, some i)
    | done => done
  else acc

/-- The LOD-range derivation of BuildingPager::setSession (lines 53-74): scan
levels 0..29; if a minimum was found but no maximum, the maximum coincides with
the minimum; unset optionals fall back to their default 0. -/
def pagerDeriveLevels (ss : StyleSheet) : Nat × Nat :=
  let scan := (List.range 30).foldl (lodScanStep ss) (none, none)
  let mx := if scan.1.isSome ∧ scan.2.isNone then scan.1 else scan.2
  (scan.1.getD 0, mx.getD 0)

/-! ### Observation helpers for the theorems -/

/-- The single root elevation of a building, when it has exactly one. -/
def Building.rootElev? (b : Building) : Option Elevation :=
  match b.elevations with
  | .cons e .nil => some e
  | _ => none

/-- The single child of an elevation, when it has exactly one. -/
def Elevation.onlyChild? (e : Elevation) : Option Elevation :=
  match e.children with
  | .cons c .nil => some c
  | _ => none

def Wall.faceCount (w : Wall) : Nat := w.faces.length

mutual
def Elevation.faceCount : Elevation → Nat
  | .mk _ _ _ _ _ _ _ _ _ walls ch =>
      (walls.map Wall.faceCount).sum + ElevList.faceCount ch

def ElevList.faceCount : ElevList → Nat
  | .nil => 0
  | .cons e es => Elevation.faceCount e + ElevList.faceCount es
end

def Building.faceCount (b : Building) : Nat :=
  ElevList.faceCount b.elevations

/-- The last valid polygon ring among a geometry's parts — the ring whose
building survives the per-ring overwrite of the `building` ref_ptr in
createBuilding's loop. -/
def lastValidRing : List GeomPart → Option (List Vec3)
  | [] => none
  | p :: ps =>
      match lastValidRing ps with
      | some r => some r
      | none =>
          match p with
          | .polygon r => if ringIsValid r then some r else none
          | .nonPolygon _ => none

/-- The spec's floor-count formula: max(1, round(height / unitHeight)). -/
def specFloorCount (h u : ℚ) : Nat :=
  (max 1 (osgRound (h / u))).toNat

/-- The terrain min/max create computes for a (preprocessed) feature, starting
from the float sentinels (create lines 170-175). -/
def BuildingFactory.featureMinMax (fac : BuildingFactory) (f : Feature) : ℚ × ℚ :=
  fac.calculateTerrainMinMax (fac.preprocess f) (fltMax, -fltMax)

/-- The buildings the non-catalog path generates for a (preprocessed) feature
before any terrain correction: at most the one building of createBuilding. -/
def BuildingFactory.generated (fac : BuildingFactory) (f : Feature) : List Building :=
  match fac.createBuilding (some (fac.preprocess f)) with
  | some b => [b]
  | none => []

/-- What the LOD scan leaves in its accumulator after consuming the levels in
`l` that carry a style: the first fills the minimum, the second the maximum. -/
def lodMerge (acc : Option Nat × Option Nat) (l : List Nat) :
    Option Nat × Option Nat :=
  match acc with
  | (none, mx) =>
      (l.head?, match mx with | none => l.tail.head? | some b => some b)
  | (some mn, none) => (some mn, l.head?)
  | (some mn, some mx) => (some mn, some mx)

/-! ### Concrete instances used by the scenario theorems, counterexamples and
witnesses -/

/-- The 10×10 unit square footprint of the end-to-end scenario. -/
def squareRing10 : List Vec3 :=
  [⟨0, 0, 0⟩, ⟨10, 0, 0⟩, ⟨10, 10, 0⟩, ⟨0, 10, 0⟩]

/-- BuildingSymbol of the end-to-end scenario: height expression constant 30,
floor height 3. -/
def symC3 : BuildingSymbol :=
  { height := .const 30, floorHeight := 3 }

/-- Session of the end-to-end scenario: default style carrying `symC3`, no
resource library. -/
def sessionC3 : Session :=
  { styles := { defaultStyle := { altitude := none, buildingSym := some symC3 },
                resourceLibrary := none,
                namedStyles := [] } }

/-- Factory of the end-to-end scenario: session set, no catalog, no output SRS,
elevation queries always failing. -/
def factoryC3 : BuildingFactory :=
  { session := some sessionC3, catalog := none, outSRS := none,
    removeColinear := id, eqGetElevations := fun _ => none }

/-- Feature of the end-to-end scenario: FID 42, square footprint. -/
def featureC3 : Feature :=
  { fid := 42, attrs := [],
    geometry := some { compType := .polygon, parts := [.polygon squareRing10] } }

/-- Output of running create on the scenario feature (no catalog, null style). -/
def outputC3 : List Building :=
  (factoryC3.create (some [some featureC3]) invalidExtent none []).1

/-- A factory with no session and no catalog, whose terrain queries fail. -/
def factoryPlain : BuildingFactory :=
  { session := none, catalog := none, outSRS := none,
    removeColinear := id, eqGetElevations := fun _ => none }

/-- A factory like `factoryPlain` whose terrain query resolves a single sample
of elevation 5 for every part — so min = max = 5. -/
def factoryOneSample : BuildingFactory :=
  { factoryPlain with eqGetElevations := fun _ => some [5] }

/-- A factory like `factoryPlain` whose terrain query resolves samples 2 and 7
for every part — so min = 2 < 7 = max. -/
def factoryTwoSamples : BuildingFactory :=
  { factoryPlain with eqGetElevations := fun _ => some [2, 7] }

/-- A style demanding terrain clamping (AltitudeSymbol with CLAMP_TERRAIN). -/
def styleClamped : Style :=
  { altitude := some .clampTerrain, buildingSym := none }

/-- A triangle footprint. -/
def triRing : List Vec3 :=
  [⟨0, 0, 0⟩, ⟨4, 0, 0⟩, ⟨0, 4, 0⟩]

/-- A feature with a single triangle ring, FID 7. -/
def featureTri : Feature :=
  { fid := 7, attrs := [],
    geometry := some { compType := .polygon, parts := [.polygon triRing] } }

/-- A two-ring polygon feature: a triangle ring and a square ring, FID 9. -/
def featureTwoRings : Feature :=
  { fid := 9, attrs := [],
    geometry := some { compType := .polygon,
                       parts := [.polygon [⟨0, 0, 0⟩, ⟨1, 0, 0⟩, ⟨0, 1, 0⟩],
                                 .polygon [⟨2, 0, 0⟩, ⟨3, 0, 0⟩, ⟨3, 1, 0⟩, ⟨2, 1, 0⟩]] } }

/-- A square ring centered at the origin. -/
def unitRingC2 : List Vec3 :=
  [⟨-1, -1, 0⟩, ⟨1, -1, 0⟩, ⟨1, 1, 0⟩, ⟨-1, 1, 0⟩]

/-- Polygon geometry holding the single origin-centered square ring. -/
def unitGeomC2 : Geometry :=
  { compType := .polygon, parts := [.polygon unitRingC2] }

/-- A single-square-ring feature centered at the origin, FID 11 (its local
frame transform is the identity). -/
def featureUnitSquare : Feature :=
  { fid := 11, attrs := [], geometry := some unitGeomC2 }

/-- A triangle feature far from the origin (bounding-box center (101, 101)). -/
def featureFar : Feature :=
  { fid := 13, attrs := [],
    geometry := some { compType := .polygon,
                       parts := [.polygon [⟨100, 100, 0⟩, ⟨102, 100, 0⟩, ⟨100, 102, 0⟩]] } }

/-- A valid extent covering [0,10]×[0,10]. -/
def extentSmall : GeoExtent :=
  { valid := true, xmin := 0, xmax := 10, ymin := 0, ymax := 10 }

/-- An empty style (no symbols at all). -/
def styleEmpty : Style :=
  { altitude := none, buildingSym := none }

/-- A style sheet defining styles only for level names "2" and "5". -/
def twoFiveSheet : StyleSheet :=
  { defaultStyle := styleEmpty, resourceLibrary := none,
    namedStyles := [("2", styleEmpty), ("5", styleEmpty)] }

/-- A style sheet defining a style only for level name "4". -/
def fourSheet : StyleSheet :=
  { defaultStyle := styleEmpty, resourceLibrary := none,
    namedStyles := [("4", styleEmpty)] }

unseal Rat.add Rat.mul Rat.inv Rat.sub

/-! ### Claim theorems -/

/-- C4: BuildingFactory::create returns false if and only if the input cursor
is null, leaving the output untouched in that case; for every non-null cursor
(zero features or only skipped ones included) it runs the cursor to exhaustion
and returns true. -/
theorem create_false_iff_null_cursor (fac : BuildingFactory) (cropTo : GeoExtent)
    (style : Option Style) (output : List Building) :
    fac.create none cropTo style output = (output, false)
    ∧ ∀ feats : List (Option Feature),
        (fac.create (some feats) cropTo style output).2 = true :=
  ⟨rfl, fun _ => rfl⟩

/-- C10: every Building returned by the default generator has exactly one root
Elevation, whose roof exists and is flat, and whose child sequence is exactly
one Parapet whose parent reference is the root Elevation, whose own roof
exists, and which has exactly one floor — for every factory state and feature. -/
theorem sample_building_invariant (fac : BuildingFactory) (of : Option Feature) :
    ∃ root par : Elevation,
      (fac.createSampleBuilding of).elevations = .cons root .nil
      ∧ root.roofType = some .flat
      ∧ (root.roof).isSome = true
      ∧ root.children = .cons par .nil
      ∧ par.kind = .parapet
      ∧ par.parent = some root.tag
      ∧ (par.roof).isSome = true
      ∧ par.numFloors = 1 :=
  ⟨_, _, rfl, rfl, rfl, rfl, rfl, rfl, rfl, rfl⟩

set_option maxRecDepth 200000 in
/-- C3: end-to-end scenario — a 10×10 square footprint with FID 42, height
expression constant 30 and floor height 3 in the session's default style, no
resource library: create yields exactly one Building with UID 42, one root
Elevation of height 30 with 10 floors, and one parapet child of height 2,
width 2 and one floor. -/
theorem end_to_end_scenario :
    outputC3.length = 1
    ∧ (outputC3.head?.map Building.uid) = some 42
    ∧ ((outputC3.head?.bind Building.rootElev?).map Elevation.height) = some 30
    ∧ ((outputC3.head?.bind Building.rootElev?).map Elevation.numFloors) = some 10
    ∧ (((outputC3.head?.bind Building.rootElev?).bind Elevation.onlyChild?).map
        Elevation.height) = some 2
    ∧ (((outputC3.head?.bind Building.rootElev?).bind Elevation.onlyChild?).map
        Elevation.width) = some 2
    ∧ (((outputC3.head?.bind Building.rootElev?).bind Elevation.onlyChild?).map
        Elevation.numFloors) = some 1
    ∧ (((outputC3.head?.bind Building.rootElev?).bind Elevation.onlyChild?).map
        Elevation.kind) = some .parapet := by
  decide

theorem lodScan_foldl (ss : StyleSheet) (xs : List Nat) :
    ∀ acc, xs.foldl (lodScanStep ss) acc = lodMerge acc (xs.filter (styleDefinedAt ss)) := by
  induction xs with
  | nil =>
      intro acc
      rcases acc with ⟨mn, mx⟩
      cases mn <;> cases mx <;> rfl
  | cons x xs ih =>
      intro acc
      rcases acc with ⟨mn, mx⟩
      cases hx : styleDefinedAt ss x <;>
        cases mn <;> cases mx <;>
          simp [lodScanStep, hx, ih, lodMerge, List.filter_cons]

theorem pagerDeriveLevels_eq (ss : StyleSheet) :
    pagerDeriveLevels ss =
      (((List.range 30).filter (styleDefinedAt ss)).headD 0,
       (((List.range 30).filter (styleDefinedAt ss)).tail).headD
         (((List.range 30).filter (styleDefinedAt ss)).headD 0)) := by
  unfold pagerDeriveLevels
  rw [lodScan_foldl]
  rcases h : (List.range 30).filter (styleDefinedAt ss) with _ | ⟨a, _ | ⟨b, t⟩⟩ <;>
    simp [lodMerge]

set_option maxRecDepth 100000 in
/-- C5: the pager's LOD range scan over style names "0".."29" — the first level
with a defined style is the minimum, the next level found with a defined style
is the maximum, and with exactly one defined level the two coincide; styles
only at "2" and "5" give (2,5), a style only at "4" gives (4,4). -/
theorem pager_lod_range (ss : StyleSheet) :
    pagerDeriveLevels ss =
      (((List.range 30).filter (styleDefinedAt ss)).headD 0,
       (((List.range 30).filter (styleDefinedAt ss)).tail).headD
         (((List.range 30).filter (styleDefinedAt ss)).headD 0))
    ∧ pagerDeriveLevels twoFiveSheet = (2, 5)
    ∧ pagerDeriveLevels fourSheet = (4, 4) :=
  ⟨pagerDeriveLevels_eq ss, by decide, by decide⟩

theorem ringFold_eq (b0 : Building) (ctx : BuildContext) (parts : List GeomPart) :
    ∀ acc, parts.foldl (fun acc part =>
        match part with
        | GeomPart.polygon ring =>
            if ringIsValid ring then
              some (buildingBuild b0 (cleanPolygon ring) ctx)
            else acc
        | GeomPart.nonPolygon _ => acc) acc
      = match lastValidRing parts with
        | some r => some (buildingBuild b0 (cleanPolygon r) ctx)
        | none => acc := by
  induction parts with
  | nil => intro acc; rfl
  | cons p ps ih =>
      intro acc
      rw [List.foldl_cons, ih]
      rcases h : lastValidRing ps with _ | r
      · rcases p with ring | pts
        · by_cases hv : ringIsValid ring <;> simp [lastValidRing, h, hv]
        · simp [lastValidRing, h]
      · simp [lastValidRing, h]

set_option maxRecDepth 100000 in
theorem createStep_length_le (fac : BuildingFactory) (hcat : fac.catalog = none)
    (cropTo : GeoExtent) (s : Option Style) (ntc : Bool) (out : List Building)
    (of : Option Feature) :
    (fac.createStep cropTo s ntc out of).length ≤ out.length + 1 := by
  unfold BuildingFactory.createStep
  rcases of with _ | f0
  · exact Nat.le_succ out.length
  rcases hgeo : f0.geometry with _ | g <;> simp only [hgeo, hcat]
  · exact Nat.le_succ out.length
  split
  · exact Nat.le_succ out.length
  rcases hob : fac.createBuilding (some (fac.preprocess f0)) with _ | b <;>
    simp only [hob] <;> (repeat' split) <;>
    first
      | exact Nat.le_succ out.length
      | simp [List.length_append, List.length_take, List.length_drop,
          List.length_map, Nat.min_def]

/-- C2 (amended): per valid polygon ring createBuilding runs the per-ring
construction, but the `building` pointer is overwritten each time, so only the
Building of the LAST valid ring is returned — with the local-to-world matrix
(anchored at the bounding-box center) as its reference frame and built from
its own cleaned footprint; and on the non-catalog path create appends at most
one Building per feature. -/
theorem createBuilding_last_ring (fac : BuildingFactory) (f : Feature) (g : Geometry)
    (hg : f.geometry = some g) (hty : g.compType = GeomType.polygon)
    (hval : g.isValid = true) (ring : List Vec3)
    (hlast : lastValidRing
        ((g.mapPointLists (fun ps => ps.map (toLocal g.boundsCenter2d))).parts)
      = some ring) :
    fac.createBuilding (some f)
      = some (buildingBuild
          { fac.createSampleBuilding (some f) with
              referenceFrame := some g.boundsCenter2d }
          (cleanPolygon ring) (buildContextOf f))
    ∧ ∀ (cropTo : GeoExtent) (s : Option Style) (out : List Building)
        (of : Option Feature), fac.catalog = none →
        ((fac.create (some [of]) cropTo s out).1).length ≤ out.length + 1 := by
  constructor
  · simp only [BuildingFactory.createBuilding, hg]
    rw [if_pos (show g.compType = GeomType.polygon ∧ g.isValid = true from ⟨hty, hval⟩)]
    rw [ringFold_eq, hlast]
  · intro cropTo s out of hcat
    show ((fac.createStep cropTo s (needToClamp s) out of)).length ≤ out.length + 1
    exact createStep_length_le fac hcat cropTo s (needToClamp s) out of

set_option maxRecDepth 200000 in
/-- C2 counterexample: a feature with two valid polygon rings (a triangle then
a square) yields exactly ONE Building, not one per ring, and its walls come
from the last (square) ring: 4 root faces + 4 parapet faces = 8 (a triangle
would give 6). -/
theorem multi_ring_single_building_cex :
    ((factoryPlain.create (some [some featureTwoRings]) invalidExtent none []).1).length = 1
    ∧ (((factoryPlain.create (some [some featureTwoRings]) invalidExtent none []).1).head?.map
        Building.faceCount) = some 8 := by
  decide

theorem featureMinMax_geoNone (fac : BuildingFactory) (f : Feature)
    (hgeo : f.geometry = none) : fac.featureMinMax f = (fltMax, -fltMax) := by
  unfold BuildingFactory.featureMinMax BuildingFactory.calculateTerrainMinMax
    BuildingFactory.preprocess
  rcases h : fac.outSRS with _ | tr <;> simp [h, hgeo]

set_option maxRecDepth 100000 in
theorem createStep_noclamp_eq (fac : BuildingFactory) (hcat : fac.catalog = none)
    (cropTo : GeoExtent) (s : Option Style) (o : List Building) (f : Feature) :
    fac.createStep cropTo s false o (some f)
      = if f.geometry = none then o
        else if BuildingFactory.cropToCentroid (fac.preprocess f) cropTo = false then o
        else o ++ fac.generated f := by
  rcases hgeo : f.geometry with _ | g
  · simp [BuildingFactory.createStep, hgeo]
  · by_cases hcrop : BuildingFactory.cropToCentroid (fac.preprocess f) cropTo = false
    · simp [BuildingFactory.createStep, hgeo, hcrop]
    · rcases hob : fac.createBuilding (some (fac.preprocess f)) with _ | b <;>
        simp [BuildingFactory.createStep, hgeo, hcrop, hcat,
          BuildingFactory.generated, hob, lt_irrefl]

set_option maxRecDepth 100000 in
theorem createStep_clamp_eq (fac : BuildingFactory) (hcat : fac.catalog = none)
    (cropTo : GeoExtent) (s : Option Style) (o : List Building) (f : Feature) :
    fac.createStep cropTo s true o (some f)
      = if f.geometry = none then o
        else if BuildingFactory.cropToCentroid (fac.preprocess f) cropTo = false then o
        else if (fac.featureMinMax f).1 < fltMax ∧ -fltMax < (fac.featureMinMax f).2 then
          o ++ (fac.generated f).map (clampBuilding (fac.featureMinMax f).1)
        else o ++ fac.generated f := by
  rcases hgeo : f.geometry with _ | g
  · simp [BuildingFactory.createStep, hgeo]
  · by_cases hcrop : BuildingFactory.cropToCentroid (fac.preprocess f) cropTo = false
    · simp [BuildingFactory.createStep, hgeo, hcrop]
    · simp only [BuildingFactory.featureMinMax]
      by_cases hmc :
          (fac.calculateTerrainMinMax (fac.preprocess f) (fltMax, -fltMax)).1 < fltMax
          ∧ -fltMax < (fac.calculateTerrainMinMax (fac.preprocess f) (fltMax, -fltMax)).2
      · obtain ⟨h1, h2⟩ := hmc
        rcases hob : fac.createBuilding (some (fac.preprocess f)) with _ | b <;>
          simp [BuildingFactory.createStep, hgeo, hcrop, hcat, hob,
            BuildingFactory.generated, h1, h2, List.take_left, List.drop_left,
            List.map_append, List.length_map]
      · rcases hob : fac.createBuilding (some (fac.preprocess f)) with _ | b <;>
          simp [BuildingFactory.createStep, hgeo, hcrop, hcat, hob,
            BuildingFactory.generated, hmc]

set_option maxRecDepth 100000 in
/-- C1 (amended): on the non-catalog path, terrain vertical correction is
applied to exactly the Buildings appended for the current feature, and exactly
when at least one terrain sample resolved — i.e. when min and max moved off
their FLT_MAX/−FLT_MAX sentinels (which also happens when min = max, so the
trigger is NOT `min < max`): every wall face edge elevation increases by
exactly the sampled min relative to the run with clamping disabled; when no
sample resolves, the output is identical to the clamping-disabled run. -/
theorem terrain_clamp_correct (fac : BuildingFactory) (hcat : fac.catalog = none)
    (cropTo : GeoExtent) (sC sN : Option Style)
    (hC : needToClamp sC = true) (hN : needToClamp sN = false)
    (out : List Building) (f : Feature) :
    ((fac.featureMinMax f).1 < fltMax ∧ -fltMax < (fac.featureMinMax f).2 →
      (fac.create (some [some f]) cropTo sC out).1
        = out ++ ((fac.create (some [some f]) cropTo sN []).1).map
            (clampBuilding (fac.featureMinMax f).1)
      ∧ ((fac.create (some [some f]) cropTo sC out).1).map Building.edgeZs
        = out.map Building.edgeZs
          ++ ((fac.create (some [some f]) cropTo sN []).1).map
              (fun b => b.edgeZs.map (· + (fac.featureMinMax f).1)))
    ∧ (¬ ((fac.featureMinMax f).1 < fltMax ∧ -fltMax < (fac.featureMinMax f).2) →
      (fac.create (some [some f]) cropTo sC out).1
        = out ++ (fac.create (some [some f]) cropTo sN []).1) := by
  have hsC : (fac.create (some [some f]) cropTo sC out).1
      = fac.createStep cropTo sC true out (some f) := by
    simp [BuildingFactory.create, hC]
  have hsN : (fac.create (some [some f]) cropTo sN []).1
      = fac.createStep cropTo sN false [] (some f) := by
    simp [BuildingFactory.create, hN]
  rw [hsC, hsN, createStep_clamp_eq fac hcat cropTo sC out f,
    createStep_noclamp_eq fac hcat cropTo sN [] f]
  have hmapmap : ∀ (l : List Building) (m : ℚ),
      (l.map (clampBuilding m)).map Building.edgeZs
        = l.map (fun b => b.edgeZs.map (· + m)) := by
    intro l m
    rw [List.map_map]
    exact List.map_congr_left (fun b _ => clampBuilding_edgeZs m b)
  rcases hgeo : f.geometry with _ | g
  · simp [hgeo]
  · simp only [if_neg (Option.some_ne_none g)]
    by_cases hcrop : BuildingFactory.cropToCentroid (fac.preprocess f) cropTo = false
    · simp [if_pos hcrop]
    · simp only [if_neg hcrop]
      by_cases hmc : (fac.featureMinMax f).1 < fltMax ∧ -fltMax < (fac.featureMinMax f).2
      · simp only [if_pos hmc]
        refine ⟨fun _ => ⟨by simp, ?_⟩, fun hn => absurd hmc hn⟩
        simp only [List.nil_append, List.map_append]
        rw [hmapmap]
      · simp only [if_neg hmc]
        exact ⟨fun hp => absurd hp hmc, fun _ => rfl⟩

set_option maxRecDepth 400000 in
/-- C1 counterexample: with a single resolved terrain sample (elevation 5) the
sampled min and max are equal, so `min < max` is false — yet create still
applies the vertical correction, and the generated geometry differs from a run
with clamping disabled (by the +5 shift), refuting both "only when min < max"
and the claimed identity when ¬(min < max). -/
theorem terrain_clamp_min_eq_max_cex :
    ¬ ((factoryOneSample.featureMinMax featureTri).1
        < (factoryOneSample.featureMinMax featureTri).2)
    ∧ ((factoryOneSample.create (some [some featureTri]) invalidExtent
          (some styleClamped) []).1).map Building.edgeZs
      ≠ ((factoryOneSample.create (some [some featureTri]) invalidExtent none []).1).map
          Building.edgeZs := by
  decide

set_option maxRecDepth 400000 in
/-- Witness for C1: with two resolved samples 2 and 7 the hypotheses hold, and
the clamped run equals the unclamped run with every building shifted by
min = 2. -/
theorem terrain_clamp_correct_witness :
    ((factoryTwoSamples.featureMinMax featureTri).1 < fltMax
      ∧ -fltMax < (factoryTwoSamples.featureMinMax featureTri).2)
    ∧ (factoryTwoSamples.create (some [some featureTri]) invalidExtent
          (some styleClamped) []).1
        = ((factoryTwoSamples.create (some [some featureTri]) invalidExtent none []).1).map
            (clampBuilding (factoryTwoSamples.featureMinMax featureTri).1) := by
  have h := (terrain_clamp_correct factoryTwoSamples rfl invalidExtent
      (some styleClamped) none (by decide) (by decide) [] featureTri).1 (by decide)
  refine ⟨by decide, ?_⟩
  simpa using h.1

set_option maxRecDepth 200000 in
/-- Witness for C2: the single-ring origin-centered square feature, where the
hypotheses hold by evaluation. -/
theorem createBuilding_last_ring_witness :
    factoryPlain.createBuilding (some featureUnitSquare)
      = some (buildingBuild
          { factoryPlain.createSampleBuilding (some featureUnitSquare) with
              referenceFrame := some unitGeomC2.boundsCenter2d }
          (cleanPolygon unitRingC2) (buildContextOf featureUnitSquare))
    ∧ ((factoryPlain.create (some [some featureUnitSquare]) invalidExtent none []).1).length ≤ 1 := by
  have h := createBuilding_last_ring factoryPlain featureUnitSquare unitGeomC2 rfl rfl
    (by decide) unitRingC2 (by decide)
  exact ⟨h.1, h.2 invalidExtent none [] (some featureUnitSquare) rfl⟩

theorem cropToCentroid_invalid (f : Feature) :
    BuildingFactory.cropToCentroid f invalidExtent = true := rfl

/-- C6: centroid crop — a feature whose (preprocessed) geometry bounding-box
center fails the valid-extent membership test is excluded from the output; a
passing feature is processed exactly as with no crop extent; an invalid extent
always admits the feature; and for a valid extent the test is exactly
rectangle membership of the bounding-box center. -/
theorem centroid_crop_correct (fac : BuildingFactory) (cropTo : GeoExtent)
    (style : Option Style) (out : List Building) (f : Feature) :
    (BuildingFactory.cropToCentroid (fac.preprocess f) cropTo = false →
      (fac.create (some [some f]) cropTo style out).1 = out)
    ∧ (BuildingFactory.cropToCentroid (fac.preprocess f) cropTo = true →
      (fac.create (some [some f]) cropTo style out).1
        = (fac.create (some [some f]) invalidExtent style out).1)
    ∧ (cropTo.valid = false →
      BuildingFactory.cropToCentroid (fac.preprocess f) cropTo = true)
    ∧ (∀ g, (fac.preprocess f).geometry = some g → cropTo.valid = true →
      BuildingFactory.cropToCentroid (fac.preprocess f) cropTo
        = cropTo.containsPt g.boundsCenter2d.1 g.boundsCenter2d.2) := by
  have hs : (fac.create (some [some f]) cropTo style out).1
      = fac.createStep cropTo style (needToClamp style) out (some f) := rfl
  have hs2 : (fac.create (some [some f]) invalidExtent style out).1
      = fac.createStep invalidExtent style (needToClamp style) out (some f) := rfl
  refine ⟨fun hcf => ?_, fun hct => ?_, fun hv => ?_, fun g hg hv => ?_⟩
  · rw [hs]
    rcases hgeo : f.geometry with _ | g
    · simp [BuildingFactory.createStep, hgeo]
    · simp [BuildingFactory.createStep, hgeo, hcf]
  · rw [hs, hs2]
    rcases hgeo : f.geometry with _ | g
    · simp [BuildingFactory.createStep, hgeo]
    · simp only [BuildingFactory.createStep, hgeo, hct, cropToCentroid_invalid,
        Bool.true_eq_false, if_false]
  · simp [BuildingFactory.cropToCentroid, hv]
  · simp [BuildingFactory.cropToCentroid, hv, hg]

set_option maxRecDepth 100000 in
/-- Witness for C6: the far-away feature is excluded by the small extent; the
nearby feature passes and is processed exactly as with an invalid extent. -/
theorem centroid_crop_correct_witness :
    BuildingFactory.cropToCentroid (factoryPlain.preprocess featureFar) extentSmall = false
    ∧ (factoryPlain.create (some [some featureFar]) extentSmall none []).1 = []
    ∧ BuildingFactory.cropToCentroid (factoryPlain.preprocess featureTri) extentSmall = true
    ∧ (factoryPlain.create (some [some featureTri]) extentSmall none []).1
        = (factoryPlain.create (some [some featureTri]) invalidExtent none []).1 := by
  refine ⟨by decide, ?_, by decide, ?_⟩
  · exact (centroid_crop_correct factoryPlain extentSmall none [] featureFar).1 (by decide)
  · exact (centroid_crop_correct factoryPlain extentSmall none [] featureTri).2.1 (by decide)

/-- C7: the derived floor count of the default generator equals
max(1, round(height / unitHeight)), where unitHeight is the resolved wall
skin's image height when a skin resolved and the style's configured floor
height otherwise; and the formula yields at least 1 for every positive height
and unit height. -/
theorem floor_count_formula (fac : BuildingFactory) (sess : Session)
    (sym : BuildingSymbol) (hs : fac.session = some sess)
    (hsym : sess.styles.defaultStyle.buildingSym = some sym) (f : Feature) :
    (((fac.createSampleBuilding (some f)).rootElev?).map Elevation.numFloors
      = some (specFloorCount (f.eval sym.height)
          (match fac.wallSkinOf with
           | some ws => ws.imageHeight
           | none => sym.floorHeight)))
    ∧ (∀ hq u : ℚ, 0 < hq → 0 < u → 1 ≤ specFloorCount hq u) := by
  constructor
  · rcases hws : fac.wallSkinOf with _ | ws <;>
      simp [BuildingFactory.createSampleBuilding, hs, hsym, hws, Building.rootElev?,
        Elevation.numFloors, specFloorCount]
  · intro hq u _ _
    have h1 : (1 : ℤ) ≤ max 1 (osgRound (hq / u)) := le_max_left _ _
    unfold specFloorCount
    omega

/-- Witness for C7: the scenario factory (no skin, floor height 3, height 30). -/
theorem floor_count_formula_witness :
    (((factoryC3.createSampleBuilding (some featureC3)).rootElev?).map Elevation.numFloors
      = some (specFloorCount 30 3))
    ∧ 1 ≤ specFloorCount 30 3 := by
  have h := floor_count_formula factoryC3 sessionC3 symC3 rfl rfl featureC3
  exact ⟨by simpa [Feature.eval, symC3, featureC3, BuildingFactory.wallSkinOf,
      factoryC3, sessionC3] using h.1,
    h.2 30 3 (by norm_num) (by norm_num)⟩

/-- C8: generation is deterministic per feature — the BuildContext seed is the
feature identifier, and two features equal in FID, attributes and geometry,
processed by the same factory, produce identical Building trees. -/
theorem deterministic_generation (fac : BuildingFactory) (f g : Feature)
    (h1 : f.fid = g.fid) (h2 : f.attrs = g.attrs) (h3 : f.geometry = g.geometry) :
    (buildContextOf f).seed = f.fid
    ∧ fac.createBuilding (some f) = fac.createBuilding (some g) := by
  have hfg : f = g := by
    obtain ⟨a, b, c⟩ := f
    obtain ⟨d, e, k⟩ := g
    simp_all
  subst hfg
  exact ⟨rfl, rfl⟩

/-- Witness for C8: the scenario feature compared with itself. -/
theorem deterministic_generation_witness :
    (buildContextOf featureC3).seed = featureC3.fid
    ∧ factoryC3.createBuilding (some featureC3)
        = factoryC3.createBuilding (some featureC3) :=
  deterministic_generation factoryC3 featureC3 featureC3 rfl rfl rfl

theorem createStep_style_indep (fac : BuildingFactory) (hcat : fac.catalog = none)
    (cropTo : GeoExtent) (s1 s2 : Option Style) (ntc : Bool) (out : List Building)
    (of : Option Feature) :
    fac.createStep cropTo s1 ntc out of = fac.createStep cropTo s2 ntc out of := by
  unfold BuildingFactory.createStep
  rcases of with _ | f0
  · rfl
  rcases hgeo : f0.geometry with _ | g <;> simp only [hgeo, hcat]

/-- C9: on the non-catalog path the per-call style influences create's result
only through the clamp decision — createBuilding never receives it and the
default generator reads the session's default style — so two calls differing
only in the style argument, with equal needToClamp, produce identical output. -/
theorem style_independence (fac : BuildingFactory) (hcat : fac.catalog = none)
    (s1 s2 : Option Style) (hclamp : needToClamp s1 = needToClamp s2)
    (inp : List (Option Feature)) (cropTo : GeoExtent) (out : List Building) :
    fac.create (some inp) cropTo s1 out = fac.create (some inp) cropTo s2 out := by
  unfold BuildingFactory.create
  rw [hclamp]
  induction inp generalizing out with
  | nil => rfl
  | cons a l ih =>
      simp only [List.foldl_cons]
      rw [createStep_style_indep fac hcat cropTo s1 s2 (needToClamp s2) out a]
      exact ih _

/-- Witness for C9: null style versus an empty style on the scenario feature. -/
theorem style_independence_witness :
    factoryC3.create (some [some featureC3]) invalidExtent none []
      = factoryC3.create (some [some featureC3]) invalidExtent (some styleEmpty) [] :=
  style_independence factoryC3 rfl none (some styleEmpty) rfl
    [some featureC3] invalidExtent []

end OEB
